import Mathlib

/-!
Verification of the clustering engine of the Clustering_Algorithms_visualizaion
repository. The repository's single source file, src/App.tsx, holds the
function runClustering, which selects K-means or DBSCAN, calls the respective
clustering library, and maps the returned labels back onto the input points.
The two algorithms themselves are not part of the repository (only their
callers are), so they are modelled here from the specification (sections 4.1
and 4.2), while runClustering and its calling effect are embedded directly
from src/App.tsx. Coordinates are rationals; the source computes in double
precision, but every claim under study is about structure (lengths, label
ranges, error propagation), not rounding.
-/

/-- A 2-D data point with an optional cluster label, mirroring the DataPoint
interface of src/App.tsx (fields x, y and optional cluster; DBSCAN writes -1
as the noise marker, and an absent label is `none`). -/
structure DataPoint where
  x : ℚ
  y : ℚ
  cluster : Option Int := none
  deriving Repr, DecidableEq

/-- Error taxonomy of the spec (section 7): out-of-range parameters and empty
input. -/
inductive ClusteringError where
  | InvalidParameter
  | EmptyInput
  deriving Repr, DecidableEq

/-- Squared Euclidean distance between two points. Every comparison of
Euclidean distances below is expressed on squared distances, which is
equivalent for nonnegative radii since squaring is monotone there. -/
def sqDist (p q : ℚ × ℚ) : ℚ :=
  (p.1 - q.1) * (p.1 - q.1) + (p.2 - q.2) * (p.2 - q.2)

/-- Modelled from the spec: scan of the centroid list for the index of the
centroid nearest to p (section 4.1 step 2a). `i` is the index of the next
centroid to look at, `best` the index of the best centroid so far and `bestD`
its squared distance; the strict comparison keeps the lowest index on ties,
as section 4.1 requires. -/
def nearestAux (p : ℚ × ℚ) : List (ℚ × ℚ) → Nat → Nat → ℚ → Nat
  | [], _, best, _ => best
  | c :: cs, i, best, bestD =>
    if sqDist p c < bestD then nearestAux p cs (i + 1) i (sqDist p c)
    else nearestAux p cs (i + 1) best bestD

/-- Modelled from the spec: index of the nearest centroid, ties broken by
lowest centroid index (section 4.1 step 2a). -/
def nearestIdx (p : ℚ × ℚ) : List (ℚ × ℚ) → Nat
  | [] => 0
  | c :: cs => nearestAux p cs 1 0 (sqDist p c)

/-- Modelled from the spec: the points currently assigned to cluster j
(section 4.1 step 2b). -/
def assignedTo (points : List (ℚ × ℚ)) (assign : List Nat) (j : Nat) :
    List (ℚ × ℚ) :=
  ((points.zip assign).filter (fun pa => pa.2 = j)).map Prod.fst

/-- Modelled from the spec: coordinate-wise mean of a cluster, keeping the
previous centroid unchanged when the cluster is empty (section 4.1 step 2b's
explicit empty-cluster policy). -/
def meanPt (l : List (ℚ × ℚ)) (dflt : ℚ × ℚ) : ℚ × ℚ :=
  if l.length = 0 then dflt
  else ((l.map Prod.fst).sum / (l.length : ℚ), (l.map Prod.snd).sum / (l.length : ℚ))

/-- Modelled from the spec: the update step, recomputing each centroid as the
mean of its assigned points (section 4.1 step 2b). -/
def updateCentroids (points : List (ℚ × ℚ)) (assign : List Nat)
    (cs : List (ℚ × ℚ)) : List (ℚ × ℚ) :=
  (List.range cs.length).map
    (fun j => meanPt (assignedTo points assign j) (cs.getD j (0, 0)))

/-- Modelled from the spec: Lloyd iterations (section 4.1 step 2). Each round
recomputes the assignment from the current centroids, stops when it equals
the previous round's assignment (convergence test 2c), and otherwise updates
the centroids; `fuel` enforces the maximum iteration bound. -/
def kmeansLoop (points : List (ℚ × ℚ)) : Nat → List (ℚ × ℚ) → List Nat → List Nat
  | 0, _, prev => prev
  | fuel + 1, cs, prev =>
    let a := points.map (fun p => nearestIdx p cs)
    if a = prev then prev
    else kmeansLoop points fuel (updateCentroids points a cs) a

/-- Modelled from the spec: the seeded choice of k distinct input points as
initial centroids (section 4.1 step 1). The seed rotates the index order and
the first k positions are taken, so the choice is k distinct input positions
determined by the seed; the spec's uniform distribution over such choices is
a probabilistic refinement irrelevant to the claims under study. -/
def initCentroids (points : List (ℚ × ℚ)) (k seed : Nat) : List (ℚ × ℚ) :=
  (((List.range points.length).rotate (seed % points.length)).take k).map
    (fun i => points.getD i (0, 0))

/-- Modelled from the spec: K-means on a validated input, seeded
initialization followed by at most 100 assignment rounds (section 4.1,
iteration bound default 100: the first round below plus 99 in the loop). -/
def kmeansRun (points : List (ℚ × ℚ)) (k seed : Nat) : List Nat :=
  let cs := initCentroids points k seed
  let a := points.map (fun p => nearestIdx p cs)
  kmeansLoop points 99 (updateCentroids points a cs) a

/-- Modelled from the spec: the KMeansClusterer contract (section 4.1): fails
with EmptyInput when no points are supplied, with InvalidParameter when k is
less than 1 or exceeds the number of points (the empty-input check is taken
first, as section 8's boundary clause `empty input implies EmptyInput`
requires), and otherwise returns one label per input point. -/
def KMeansClusterer (points : List (ℚ × ℚ)) (k : Int) (seed : Nat) :
    Except ClusteringError (List Nat) :=
  if points.length = 0 then .error .EmptyInput
  else if k < 1 ∨ (points.length : Int) < k then .error .InvalidParameter
  else .ok (kmeansRun points k.toNat seed)

/-- Modelled from the spec: the epsilon-neighborhood of point i, all point
indices within Euclidean distance eps of it, itself included (section 4.2
step 2a), expressed on squared distances. -/
def neighborhood (points : List (ℚ × ℚ)) (eps : ℚ) (i : Nat) : List Nat :=
  (List.range points.length).filter
    (fun j => sqDist (points.getD i (0, 0)) (points.getD j (0, 0)) ≤ eps * eps)

/-- Modelled from the spec: breadth-first cluster expansion (section 4.2 step
2c). The queue starts at the seed point; a dequeued point not yet visited is
marked visited and, when it is a core point, its neighborhood is appended to
the queue; a dequeued point not yet assigned to an earlier cluster
(prevAssigned) nor to the current one joins the current cluster. Returns the
grown cluster and the updated visited list; fuel bounds the queue length ever
produced. -/
def expand (points : List (ℚ × ℚ)) (eps : ℚ) (minPts : Nat)
    (prevAssigned : List Nat) :
    Nat → List Nat → List Nat → List Nat → List Nat × List Nat
  | 0, _, visited, cluster => (cluster, visited)
  | _ + 1, [], visited, cluster => (cluster, visited)
  | fuel + 1, q :: queue, visited, cluster =>
    let st :=
      if q ∈ visited then (visited, queue)
      else
        let nq := neighborhood points eps q
        if minPts ≤ nq.length then (q :: visited, queue ++ nq)
        else (q :: visited, queue)
    let cluster1 :=
      if q ∈ prevAssigned ∨ q ∈ cluster then cluster else cluster ++ [q]
    expand points eps minPts prevAssigned fuel st.2 st.1 cluster1

/-- Modelled from the spec: the outer DBSCAN scan (section 4.2 step 2) over
the remaining point indices in input order. An unvisited point with a small
neighborhood is tentatively noise (just marked visited); an unvisited core
point starts a new cluster, grown by `expand`. Clusters are accumulated in
discovery order. -/
def dbscanOuter (points : List (ℚ × ℚ)) (eps : ℚ) (minPts : Nat) :
    List Nat → List Nat → List Nat → List (List Nat) → List (List Nat)
  | [], _, _, acc => acc.reverse
  | i :: rest, visited, assigned, acc =>
    if i ∈ visited then dbscanOuter points eps minPts rest visited assigned acc
    else
      let ni := neighborhood points eps i
      if ni.length < minPts then
        dbscanOuter points eps minPts rest (i :: visited) assigned acc
      else
        let r := expand points eps minPts assigned
          ((points.length + 1) * (points.length + 1)) [i] visited []
        dbscanOuter points eps minPts rest r.2 (assigned ++ r.1) (r.1 :: acc)

/-- Modelled from the spec: DBSCAN on a validated input, returning the list
of clusters in discovery order, each cluster a list of point indices — the
shape the density-clustering library's run method hands back to
runClustering; points in no cluster are the noise points (section 4.2
step 3). -/
def dbscanRun (points : List (ℚ × ℚ)) (eps : ℚ) (minPts : Nat) :
    List (List Nat) :=
  dbscanOuter points eps minPts (List.range points.length) [] [] []

/-- Modelled from the spec: the DbscanClusterer contract (section 4.2): fails
with InvalidParameter when eps is nonpositive or minPoints is less than 1,
and otherwise runs DBSCAN. -/
def DbscanClusterer (points : List (ℚ × ℚ)) (eps : ℚ) (minPts : Int) :
    Except ClusteringError (List (List Nat)) :=
  if eps ≤ 0 ∨ minPts < 1 then .error .InvalidParameter
  else .ok (dbscanRun points eps minPts.toNat)

/-- Index-passing map, the shape of the JavaScript data.map((d, i) => ...)
calls in runClustering (src/App.tsx lines 35 and 43). -/
def mapWithIdx (f : Nat → DataPoint → DataPoint) : Nat → List DataPoint → List DataPoint
  | _, [] => []
  | i, d :: ds => f i d :: mapWithIdx f (i + 1) ds

/-- The label the dbscan branch of runClustering computes for point i
(src/App.tsx line 45): JavaScript
clusters.find(c => c.includes(i)) ? clusters.findIndex(c => c.includes(i)) : -1.
The find call returns the first cluster array containing i, which is truthy
exactly when it exists, so the branch condition is the existence of a cluster
containing i. -/
def dbscanLabel (clusters : List (List Nat)) (i : Nat) : Int :=
  if (clusters.find? (fun c => decide (i ∈ c))).isSome then
    Int.ofNat (clusters.findIdx (fun c => decide (i ∈ c)))
  else -1

/-- Modelled from the spec: the message string of the error a failed library
call throws, which the catch branch of runClustering interpolates into
`Error running clustering algorithm: ...` (src/App.tsx line 50); the exact
library wording is outside the repository, only the taxonomy matters. -/
def errorMessage : ClusteringError → String
  | .InvalidParameter => "Error running clustering algorithm: InvalidParameter"
  | .EmptyInput => "Error running clustering algorithm: EmptyInput"

/-- The runClustering callback of src/App.tsx lines 31-53. Its free state
variables (algorithm, epsilon, minPoints) are explicit parameters here, as is
the K-means seed (the source's uncontrolled randomness, made explicit per the
spec's design note). It returns the new point list together with the error
message the catch branch would report (`none` when no error was set):
the kmeans branch attaches result.clusters[i] to point i, the dbscan branch
attaches the dbscanLabel of point i, an unrecognized algorithm falls through
to `return data`, and the catch branch returns data unchanged alongside the
error string. -/
def runClustering (algorithm : String) (epsilon : ℚ) (minPoints : Int)
    (seed : Nat) (data : List DataPoint) (clusterCount : Int) :
    List DataPoint × Option String :=
  if algorithm = "kmeans" then
    match KMeansClusterer (data.map fun d => (d.x, d.y)) clusterCount seed with
    | .ok labels =>
      (mapWithIdx (fun i d => { d with cluster := (labels.get? i).map Int.ofNat }) 0 data,
        none)
    | .error e => (data, some (errorMessage e))
  else if algorithm = "dbscan" then
    match DbscanClusterer (data.map fun d => (d.x, d.y)) epsilon minPoints with
    | .ok cl =>
      (mapWithIdx (fun i d => { d with cluster := some (dbscanLabel cl i) }) 0 data,
        none)
    | .error e => (data, some (errorMessage e))
  else (data, none)

/-- The clustering effect of src/App.tsx lines 59-64: when rawData is
nonempty, clusteredData is set to runClustering's result (and the error state
to the message the run reported, if any; a run that reports nothing leaves
the error state alone, since only the catch branch writes it); otherwise both
are left alone. Returns the new (clusteredData, error) pair. -/
def clusteringEffect (algorithm : String) (epsilon : ℚ) (minPoints : Int)
    (seed : Nat) (clusterCount : Int) (rawData clusteredData : List DataPoint)
    (err : Option String) : List DataPoint × Option String :=
  if 0 < rawData.length then
    let r := runClustering algorithm epsilon minPoints seed rawData clusterCount
    (r.1, (r.2).elim err some)
  else (clusteredData, err)

/-- Disjointness of two clusters: no point index lies in both. -/
def Disj (c1 c2 : List Nat) : Prop := ∀ i, i ∈ c1 → i ∉ c2

theorem Disj.symm_of {c1 c2 : List Nat} (h : Disj c1 c2) : Disj c2 c1 :=
  fun i h2 h1 => h i h1 h2

theorem mapWithIdx_length (f : Nat → DataPoint → DataPoint) :
    ∀ (l : List DataPoint) (j : Nat), (mapWithIdx f j l).length = l.length := by
  intro l
  induction l with
  | nil => intro j; rfl
  | cons d ds ih => intro j; simp [mapWithIdx, ih]

theorem mapWithIdx_get? (f : Nat → DataPoint → DataPoint) :
    ∀ (l : List DataPoint) (j i : Nat),
      (mapWithIdx f j l).get? i = (l.get? i).map (f (j + i)) := by
  intro l
  induction l with
  | nil => intro j i; simp [mapWithIdx]
  | cons d ds ih =>
    intro j i
    cases i with
    | zero => simp [mapWithIdx]
    | succ i =>
      simp only [mapWithIdx, List.get?_cons_succ]
      rw [ih (j + 1) i, Nat.add_assoc, Nat.add_comm 1 i]

theorem runClustering_fst (algorithm : String) (epsilon : ℚ) (minPoints : Int)
    (seed : Nat) (data : List DataPoint) (clusterCount : Int) :
    ∃ g : Nat → Option Int → Option Int,
      (runClustering algorithm epsilon minPoints seed data clusterCount).1
        = mapWithIdx (fun i d => { d with cluster := g i d.cluster }) 0 data := by
  have hid : mapWithIdx (fun i d => { d with cluster := d.cluster }) 0 data = data := by
    generalize 0 = j
    induction data generalizing j with
    | nil => rfl
    | cons d ds ih => simp [mapWithIdx, ih]
  unfold runClustering
  by_cases h1 : algorithm = "kmeans"
  · simp only [h1, if_pos]
    cases hk : KMeansClusterer (data.map fun d => (d.x, d.y)) clusterCount seed with
    | ok labels => exact ⟨fun i _ => (labels.get? i).map Int.ofNat, by simp⟩
    | error e => exact ⟨fun _ c => c, by simpa using hid.symm⟩
  · simp only [h1, if_neg, if_false]
    by_cases h2 : algorithm = "dbscan"
    · simp only [h2, if_pos]
      cases hd : DbscanClusterer (data.map fun d => (d.x, d.y)) epsilon minPoints with
      | ok cl => exact ⟨fun i _ => some (dbscanLabel cl i), by simp⟩
      | error e => exact ⟨fun _ c => c, by simpa using hid.symm⟩
    · simp only [h2, if_neg, if_false]
      exact ⟨fun _ c => c, hid.symm⟩

/-- C1: for every input sequence of points and either algorithm (K-means or
DBSCAN) — in fact for every algorithm selector — the point sequence returned
by runClustering has the same length as the input, and the element at index i
is the input point at index i, at most with its cluster label rewritten: the
assignment at index i describes input point i. -/
theorem claim1_length_order (algorithm : String) (epsilon : ℚ) (minPoints : Int)
    (seed : Nat) (data : List DataPoint) (clusterCount : Int) :
    (runClustering algorithm epsilon minPoints seed data clusterCount).1.length
      = data.length ∧
    ∀ i : Nat, ∃ c : Option Int,
      (runClustering algorithm epsilon minPoints seed data clusterCount).1.get? i
        = (data.get? i).map (fun d => { d with cluster := c }) := by
  obtain ⟨g, hg⟩ :=
    runClustering_fst algorithm epsilon minPoints seed data clusterCount
  constructor
  · rw [hg, mapWithIdx_length]
  · intro i
    rw [hg, mapWithIdx_get?]
    cases hd : data.get? i with
    | none => exact ⟨none, rfl⟩
    | some d => exact ⟨g (0 + i) d.cluster, rfl⟩

/-- C10: in every branch of runClustering (K-means, DBSCAN, unrecognized
algorithm, and the error branch), the x and y coordinates of every output
element equal those of the input element at the same index; since a DataPoint
has no fields besides x, y and cluster, the cluster label is the only field
runClustering may change. -/
theorem claim10_frame (algorithm : String) (epsilon : ℚ) (minPoints : Int)
    (seed : Nat) (data : List DataPoint) (clusterCount : Int) :
    ∀ i : Nat,
      ((runClustering algorithm epsilon minPoints seed data clusterCount).1.get? i).map
          (fun d => (d.x, d.y))
        = (data.get? i).map (fun d => (d.x, d.y)) := by
  obtain ⟨g, hg⟩ :=
    runClustering_fst algorithm epsilon minPoints seed data clusterCount
  intro i
  rw [hg, mapWithIdx_get?]
  cases data.get? i with
  | none => rfl
  | some d => rfl

/-- C9: for every input data array and every algorithm selector string other
than kmeans and dbscan, runClustering returns the input array unchanged and
reports no error (the source falls through to `return data`). -/
theorem claim9_unrecognized (algorithm : String) (epsilon : ℚ) (minPoints : Int)
    (seed : Nat) (data : List DataPoint) (clusterCount : Int)
    (h1 : algorithm ≠ "kmeans") (h2 : algorithm ≠ "dbscan") :
    runClustering algorithm epsilon minPoints seed data clusterCount
      = (data, none) := by
  unfold runClustering
  rw [if_neg h1, if_neg h2]

theorem claim9_witness :
    ("gaussian-mixture" ≠ "kmeans" ∧ "gaussian-mixture" ≠ "dbscan") ∧
      runClustering "gaussian-mixture" 50 3 0
          [{ x := 1, y := 2 }, { x := 3, y := 4, cluster := some 7 }] 3
        = ([{ x := 1, y := 2 }, { x := 3, y := 4, cluster := some 7 }], none) :=
  ⟨⟨by decide, by decide⟩,
    claim9_unrecognized "gaussian-mixture" 50 3 0
      [{ x := 1, y := 2 }, { x := 3, y := 4, cluster := some 7 }] 3
      (by decide) (by decide)⟩

/-- C2: the K-means clustering operation fails with EmptyInput on an empty
point sequence, and with InvalidParameter when k is less than 1 or greater
than the number of points (on a nonempty input, where the one error that can
be reported is determined); an Except.error result carries no assignment
sequence. -/
theorem claim2_kmeans_validation (points : List (ℚ × ℚ)) (k : Int) (seed : Nat) :
    (points.length = 0 → KMeansClusterer points k seed = .error .EmptyInput) ∧
    (points.length ≠ 0 → (k < 1 ∨ (points.length : Int) < k) →
      KMeansClusterer points k seed = .error .InvalidParameter) := by
  constructor
  · intro h
    unfold KMeansClusterer
    rw [if_pos h]
  · intro h hk
    unfold KMeansClusterer
    rw [if_neg h, if_pos hk]

theorem claim2_witness :
    KMeansClusterer [] 2 0 = .error .EmptyInput ∧
      KMeansClusterer [((0 : ℚ), (0 : ℚ))] 5 0 = .error .InvalidParameter :=
  ⟨(claim2_kmeans_validation [] 2 0).1 rfl,
    (claim2_kmeans_validation [((0 : ℚ), (0 : ℚ))] 5 0).2 (by decide) (by decide)⟩

/-- C3: the DBSCAN clustering operation fails with InvalidParameter when
epsilon is nonpositive or minPoints is less than 1; an Except.error result
carries no assignment sequence. -/
theorem claim3_dbscan_validation (points : List (ℚ × ℚ)) (eps : ℚ) (minPts : Int)
    (h : eps ≤ 0 ∨ minPts < 1) :
    DbscanClusterer points eps minPts = .error .InvalidParameter := by
  unfold DbscanClusterer
  rw [if_pos h]

theorem claim3_witness :
    DbscanClusterer [((0 : ℚ), (0 : ℚ))] 0 3 = .error .InvalidParameter ∧
      DbscanClusterer [((0 : ℚ), (0 : ℚ))] 2 0 = .error .InvalidParameter :=
  ⟨claim3_dbscan_validation [((0 : ℚ), (0 : ℚ))] 0 3 (Or.inl (by decide)),
    claim3_dbscan_validation [((0 : ℚ), (0 : ℚ))] 2 0 (Or.inr (by decide))⟩

/-- C6: DBSCAN is deterministic: two runs of runClustering's dbscan branch on
the same data with equal epsilon and minPoints parameters produce identical
results, whatever the seed and cluster-count parameters of the two runs (the
dbscan branch reads neither). -/
theorem claim6_dbscan_deterministic (data : List DataPoint) (e1 e2 : ℚ)
    (m1 m2 : Int) (s1 s2 : Nat) (k1 k2 : Int) (he : e1 = e2) (hm : m1 = m2) :
    runClustering "dbscan" e1 m1 s1 data k1
      = runClustering "dbscan" e2 m2 s2 data k2 := by
  subst he
  subst hm
  unfold runClustering
  rw [if_neg (by decide : ¬("dbscan" = "kmeans")),
    if_neg (by decide : ¬("dbscan" = "kmeans"))]

theorem claim6_witness :
    runClustering "dbscan" 2 2 0 [{ x := 0, y := 0 }] 3
      = runClustering "dbscan" 2 2 5 [{ x := 0, y := 0 }] 9 :=
  claim6_dbscan_deterministic [{ x := 0, y := 0 }] 2 2 2 2 0 5 3 9 rfl rfl

theorem runClustering_error_fst (algorithm : String) (epsilon : ℚ) (minPoints : Int)
    (seed : Nat) (data : List DataPoint) (clusterCount : Int) (e : String)
    (hfail : (runClustering algorithm epsilon minPoints seed data clusterCount).2
      = some e) :
    (runClustering algorithm epsilon minPoints seed data clusterCount).1 = data := by
  unfold runClustering at hfail ⊢
  by_cases h1 : algorithm = "kmeans"
  · rw [if_pos h1] at hfail ⊢
    cases hk : KMeansClusterer (data.map fun d => (d.x, d.y)) clusterCount seed with
    | ok labels => rw [hk] at hfail; simp at hfail
    | error e2 => rfl
  · rw [if_neg h1] at hfail ⊢
    by_cases h2 : algorithm = "dbscan"
    · rw [if_pos h2] at hfail ⊢
      cases hd : DbscanClusterer (data.map fun d => (d.x, d.y)) epsilon minPoints with
      | ok cl => rw [hd] at hfail; simp at hfail
      | error e2 => rfl
    · rw [if_neg h2]

/-- C4 counterexample: the claim that on a failed run the displayed clustered
data is left as it was before the run is false on the code. With previous
clustered data holding one labeled point and raw data holding the same point
unlabeled, a K-means run with clusterCount 2 on the single raw point fails,
and the clustering effect of src/App.tsx lines 59-64 overwrites the displayed
data with the unlabeled raw point, which differs from the previous displayed
data. -/
theorem claim4_counterexample :
    clusteringEffect "kmeans" 50 3 0 2 [{ x := 0, y := 0 }]
        [{ x := 0, y := 0, cluster := some 0 }] none
      = ([{ x := 0, y := 0 }],
          some "Error running clustering algorithm: InvalidParameter") ∧
    ([{ x := 0, y := 0 }] : List DataPoint)
      ≠ [{ x := 0, y := 0, cluster := some 0 }] := by
  constructor
  · decide
  · decide

/-- C4 as amended: when a clustering run fails, the error is reported
synchronously as a result value rather than by abrupt termination, and no
partial assignment sequence is returned — the run returns its input sequence
unchanged, with no labels attached; the caller then replaces the displayed
clustered data with that unlabeled input (discarding the previous
assignments) and records the error message. -/
theorem claim4_failure_behavior (algorithm : String) (epsilon : ℚ)
    (minPoints : Int) (seed : Nat) (clusterCount : Int)
    (raw prev : List DataPoint) (err0 : Option String) (e : String)
    (hraw : raw.length ≠ 0)
    (hfail : (runClustering algorithm epsilon minPoints seed raw clusterCount).2
      = some e) :
    (runClustering algorithm epsilon minPoints seed raw clusterCount).1 = raw ∧
    clusteringEffect algorithm epsilon minPoints seed clusterCount raw prev err0
      = (raw, some e) := by
  have h1 := runClustering_error_fst algorithm epsilon minPoints seed raw
    clusterCount e hfail
  refine ⟨h1, ?_⟩
  unfold clusteringEffect
  rw [if_pos (Nat.pos_of_ne_zero hraw)]
  simp [h1, hfail]

theorem claim4_witness :
    ([{ x := 0, y := 0 }] : List DataPoint).length ≠ 0 ∧
    (runClustering "kmeans" 50 3 0 [{ x := 0, y := 0 }] 2).2
      = some "Error running clustering algorithm: InvalidParameter" ∧
    ((runClustering "kmeans" 50 3 0 [{ x := 0, y := 0 }] 2).1
        = [{ x := 0, y := 0 }] ∧
      clusteringEffect "kmeans" 50 3 0 2 [{ x := 0, y := 0 }]
          [{ x := 0, y := 0, cluster := some 0 }] none
        = ([{ x := 0, y := 0 }],
            some "Error running clustering algorithm: InvalidParameter")) :=
  ⟨by decide, by decide,
    claim4_failure_behavior "kmeans" 50 3 0 2 [{ x := 0, y := 0 }]
      [{ x := 0, y := 0, cluster := some 0 }] none
      "Error running clustering algorithm: InvalidParameter"
      (by decide) (by decide)⟩

theorem nearestAux_lt (p : ℚ × ℚ) :
    ∀ (cs : List (ℚ × ℚ)) (i best : Nat) (d : ℚ), best < i →
      nearestAux p cs i best d < i + cs.length := by
  intro cs
  induction cs with
  | nil =>
    intro i best d h
    simpa [nearestAux] using h
  | cons c cs ih =>
    intro i best d h
    simp only [nearestAux, List.length_cons]
    by_cases hc : sqDist p c < d
    · rw [if_pos hc]
      have := ih (i + 1) i (sqDist p c) (Nat.lt_succ_self i)
      omega
    · rw [if_neg hc]
      have := ih (i + 1) best d (Nat.lt_succ_of_lt h)
      omega

theorem nearestIdx_lt (p : ℚ × ℚ) (cs : List (ℚ × ℚ)) (h : cs ≠ []) :
    nearestIdx p cs < cs.length := by
  cases cs with
  | nil => exact absurd rfl h
  | cons c cs =>
    have := nearestAux_lt p cs 1 0 (sqDist p c) Nat.one_pos
    simpa [nearestIdx, Nat.add_comm] using this

theorem updateCentroids_length (points : List (ℚ × ℚ)) (assign : List Nat)
    (cs : List (ℚ × ℚ)) : (updateCentroids points assign cs).length = cs.length := by
  simp [updateCentroids]

theorem kmeansLoop_length (points : List (ℚ × ℚ)) :
    ∀ (fuel : Nat) (cs : List (ℚ × ℚ)) (prev : List Nat),
      prev.length = points.length →
      (kmeansLoop points fuel cs prev).length = points.length := by
  intro fuel
  induction fuel with
  | zero => intro cs prev h; simpa [kmeansLoop] using h
  | succ n ih =>
    intro cs prev h
    simp only [kmeansLoop]
    by_cases hc : points.map (fun p => nearestIdx p cs) = prev
    · simpa [hc] using h
    · simpa [hc] using ih (updateCentroids points
        (points.map (fun p => nearestIdx p cs)) cs)
        (points.map (fun p => nearestIdx p cs)) (by simp)

theorem kmeansLoop_mem (points : List (ℚ × ℚ)) (k : Nat) (hk : 0 < k) :
    ∀ (fuel : Nat) (cs : List (ℚ × ℚ)) (prev : List Nat),
      cs.length = k → (∀ a ∈ prev, a < k) →
      ∀ a ∈ kmeansLoop points fuel cs prev, a < k := by
  intro fuel
  induction fuel with
  | zero =>
    intro cs prev _ hprev
    simpa [kmeansLoop] using hprev
  | succ n ih =>
    intro cs prev hcs hprev
    simp only [kmeansLoop]
    by_cases hc : points.map (fun p => nearestIdx p cs) = prev
    · simpa [hc] using hprev
    · have hne : cs ≠ [] := by
        intro h0
        rw [h0] at hcs
        simp at hcs
        omega
      have hmem : ∀ a ∈ points.map (fun p => nearestIdx p cs), a < k := by
        intro a ha
        obtain ⟨p, _, rfl⟩ := List.mem_map.1 ha
        have := nearestIdx_lt p cs hne
        omega
      simpa [hc] using ih (updateCentroids points
        (points.map (fun p => nearestIdx p cs)) cs)
        (points.map (fun p => nearestIdx p cs))
        (by rw [updateCentroids_length, hcs]) hmem

theorem initCentroids_length (points : List (ℚ × ℚ)) (k seed : Nat)
    (h : k ≤ points.length) : (initCentroids points k seed).length = k := by
  simp only [initCentroids, List.length_map, List.length_take,
    List.length_rotate, List.length_range]
  omega

theorem kmeansRun_length (points : List (ℚ × ℚ)) (k seed : Nat) :
    (kmeansRun points k seed).length = points.length := by
  unfold kmeansRun
  exact kmeansLoop_length points 99 _ _ (by simp)

theorem kmeansRun_mem (points : List (ℚ × ℚ)) (k seed : Nat) (h1 : 0 < k)
    (h2 : k ≤ points.length) : ∀ a ∈ kmeansRun points k seed, a < k := by
  unfold kmeansRun
  have hinit : (initCentroids points k seed).length = k :=
    initCentroids_length points k seed h2
  have hne : initCentroids points k seed ≠ [] := by
    intro h0
    rw [h0] at hinit
    simp at hinit
    omega
  apply kmeansLoop_mem points k h1
  · rw [updateCentroids_length, hinit]
  · intro a ha
    obtain ⟨p, _, rfl⟩ := List.mem_map.1 ha
    have := nearestIdx_lt p _ hne
    omega

/-- C8: for every nonempty point sequence of length n and every k with
1 <= k <= n, the K-means clusterer succeeds and returns exactly n labels,
every label lies in [0, k), and a second run with the same seed returns the
same label sequence. -/
theorem claim8_kmeans_shape (points : List (ℚ × ℚ)) (k : Int) (seed seed2 : Nat)
    (hk1 : 1 ≤ k) (hk2 : k ≤ (points.length : Int)) (hs : seed = seed2) :
    ∃ labels : List Nat,
      KMeansClusterer points k seed = .ok labels ∧
      labels.length = points.length ∧
      (∀ a ∈ labels, (a : Int) < k) ∧
      KMeansClusterer points k seed2 = .ok labels := by
  subst hs
  have hn : ¬(points.length = 0) := by omega
  have hcond : ¬(k < 1 ∨ (points.length : Int) < k) := by omega
  have hok : KMeansClusterer points k seed = .ok (kmeansRun points k.toNat seed) := by
    unfold KMeansClusterer
    rw [if_neg hn, if_neg hcond]
  refine ⟨kmeansRun points k.toNat seed, hok, kmeansRun_length points k.toNat seed,
    ?_, hok⟩
  intro a ha
  have := kmeansRun_mem points k.toNat seed (by omega) (by omega) a ha
  omega

theorem claim8_witness :
    (1 : Int) ≤ 2 ∧ (2 : Int) ≤ (([((0 : ℚ), (0 : ℚ)), (0, 1), (10, 10), (10, 11)]).length : Int) ∧
    ∃ labels : List Nat,
      KMeansClusterer [((0 : ℚ), (0 : ℚ)), (0, 1), (10, 10), (10, 11)] 2 0 = .ok labels ∧
      labels.length = ([((0 : ℚ), (0 : ℚ)), (0, 1), (10, 10), (10, 11)]).length ∧
      (∀ a ∈ labels, (a : Int) < 2) ∧
      KMeansClusterer [((0 : ℚ), (0 : ℚ)), (0, 1), (10, 10), (10, 11)] 2 0 = .ok labels :=
  ⟨by decide, by decide,
    claim8_kmeans_shape [((0 : ℚ), (0 : ℚ)), (0, 1), (10, 10), (10, 11)] 2 0 0
      (by decide) (by decide) rfl⟩

theorem expand_not_mem (points : List (ℚ × ℚ)) (eps : ℚ) (minPts : Nat)
    (prevAssigned : List Nat) :
    ∀ (fuel : Nat) (queue visited cluster : List Nat),
      (∀ x ∈ cluster, x ∉ prevAssigned) →
      ∀ x ∈ (expand points eps minPts prevAssigned fuel queue visited cluster).1,
        x ∉ prevAssigned := by
  intro fuel
  induction fuel with
  | zero => intro queue visited cluster h; simpa [expand] using h
  | succ n ih =>
    intro queue visited cluster h
    cases queue with
    | nil => simpa [expand] using h
    | cons q qs =>
      simp only [expand]
      apply ih
      by_cases hq : q ∈ prevAssigned ∨ q ∈ cluster
      · simpa [hq] using h
      · intro y hy
        have hy2 : y ∈ cluster ∨ y = q := by simpa [hq] using hy
        rcases hy2 with h1 | rfl
        · exact h y h1
        · exact fun hc => hq (Or.inl hc)

theorem dbscanOuter_pairwise (points : List (ℚ × ℚ)) (eps : ℚ) (minPts : Nat) :
    ∀ (rest visited assigned : List Nat) (acc : List (List Nat)),
      (∀ c ∈ acc, ∀ x ∈ c, x ∈ assigned) →
      List.Pairwise Disj acc →
      List.Pairwise Disj (dbscanOuter points eps minPts rest visited assigned acc) := by
  intro rest
  induction rest with
  | nil =>
    intro visited assigned acc h1 h2
    simp only [dbscanOuter]
    rw [List.pairwise_reverse]
    exact h2.imp fun h => h.symm_of
  | cons i rest ih =>
    intro visited assigned acc h1 h2
    simp only [dbscanOuter]
    by_cases hv : i ∈ visited
    · rw [if_pos hv]
      exact ih visited assigned acc h1 h2
    · rw [if_neg hv]
      by_cases hn : (neighborhood points eps i).length < minPts
      · rw [if_pos hn]
        exact ih (i :: visited) assigned acc h1 h2
      · rw [if_neg hn]
        apply ih
        · intro c hc x hx
          rcases List.mem_cons.1 hc with rfl | hc
          · exact List.mem_append_right assigned hx
          · exact List.mem_append_left _ (h1 c hc x hx)
        · constructor
          · intro c hc x hx hxc
            exact expand_not_mem points eps minPts assigned
              ((points.length + 1) * (points.length + 1)) [i] visited []
              (by simp) x hx (h1 c hc x hxc)
          · exact h2

theorem findIdx_label_mem (i : Nat) :
    ∀ l : List (List Nat),
      (l.find? (fun c => decide (i ∈ c))).isSome →
      l.findIdx (fun c => decide (i ∈ c)) < l.length ∧
      i ∈ l.getD (l.findIdx (fun c => decide (i ∈ c))) [] := by
  intro l
  induction l with
  | nil => simp [List.find?]
  | cons c l ih =>
    intro h
    by_cases hc : i ∈ c
    · constructor
      · simp [List.findIdx_cons, hc]
      · simp [List.findIdx_cons, hc]
    · have h2 : (l.find? (fun c => decide (i ∈ c))).isSome := by
        simpa [List.find?_cons, hc] using h
      obtain ⟨ha, hb⟩ := ih h2
      constructor
      · simp only [List.findIdx_cons, hc, decide_False, cond_false, List.length_cons]
        omega
      · simpa [List.findIdx_cons, hc] using hb

/-- C5: for every point sequence and valid DBSCAN parameters, the clusterer
succeeds; the clusters it returns are pairwise disjoint, so no point is in two
clusters; and the label runClustering's dbscan branch assigns to each point
index is either the noise marker -1, in which case the point lies in no
cluster (never both noise and in a numbered cluster), or a cluster index j in
[0, numClusters) with the point a member of cluster j. -/
theorem claim5_dbscan_label_invariant (points : List (ℚ × ℚ)) (eps : ℚ)
    (minPts : Int) (he : 0 < eps) (hm : 1 ≤ minPts) :
    DbscanClusterer points eps minPts = .ok (dbscanRun points eps minPts.toNat) ∧
    List.Pairwise Disj (dbscanRun points eps minPts.toNat) ∧
    ∀ i : Nat,
      (dbscanLabel (dbscanRun points eps minPts.toNat) i = -1 ∧
        ∀ c ∈ dbscanRun points eps minPts.toNat, i ∉ c) ∨
      (∃ j : Nat, dbscanLabel (dbscanRun points eps minPts.toNat) i = Int.ofNat j ∧
        j < (dbscanRun points eps minPts.toNat).length ∧
        i ∈ (dbscanRun points eps minPts.toNat).getD j []) := by
  refine ⟨?_, ?_, ?_⟩
  · unfold DbscanClusterer
    rw [if_neg (by push_neg; exact ⟨he, hm⟩)]
  · unfold dbscanRun
    exact dbscanOuter_pairwise points eps minPts.toNat _ [] [] []
      (by simp) (by simp)
  · intro i
    unfold dbscanLabel
    by_cases h : ((dbscanRun points eps minPts.toNat).find?
        (fun c => decide (i ∈ c))).isSome
    · right
      obtain ⟨ha, hb⟩ := findIdx_label_mem i _ h
      exact ⟨_, by rw [if_pos h], ha, hb⟩
    · left
      rw [if_neg h]
      refine ⟨rfl, ?_⟩
      intro c hc hic
      have hnone := List.find?_eq_none.1 (Option.not_isSome_iff_eq_none.1 h) c hc
      simp at hnone
      exact hnone hic

theorem claim5_witness :
    (0 : ℚ) < 2 ∧ (1 : Int) ≤ 2 ∧
    (DbscanClusterer [((0 : ℚ), (0 : ℚ)), (0, 1), (10, 10), (10, 11)] 2 2
        = .ok (dbscanRun [((0 : ℚ), (0 : ℚ)), (0, 1), (10, 10), (10, 11)] 2
            (2 : Int).toNat) ∧
      List.Pairwise Disj (dbscanRun [((0 : ℚ), (0 : ℚ)), (0, 1), (10, 10), (10, 11)]
          2 (2 : Int).toNat) ∧
      ∀ i : Nat,
        (dbscanLabel (dbscanRun [((0 : ℚ), (0 : ℚ)), (0, 1), (10, 10), (10, 11)] 2
              (2 : Int).toNat) i = -1 ∧
          ∀ c ∈ dbscanRun [((0 : ℚ), (0 : ℚ)), (0, 1), (10, 10), (10, 11)] 2
              (2 : Int).toNat, i ∉ c) ∨
        (∃ j : Nat,
          dbscanLabel (dbscanRun [((0 : ℚ), (0 : ℚ)), (0, 1), (10, 10), (10, 11)] 2
              (2 : Int).toNat) i = Int.ofNat j ∧
          j < (dbscanRun [((0 : ℚ), (0 : ℚ)), (0, 1), (10, 10), (10, 11)] 2
              (2 : Int).toNat).length ∧
          i ∈ (dbscanRun [((0 : ℚ), (0 : ℚ)), (0, 1), (10, 10), (10, 11)] 2
              (2 : Int).toNat).getD j [])) :=
  ⟨by decide, by decide,
    claim5_dbscan_label_invariant [((0 : ℚ), (0 : ℚ)), (0, 1), (10, 10), (10, 11)]
      2 2 (by decide) (by decide)⟩

section ConcreteEvaluation

attribute [local semireducible] Rat.add Rat.mul Rat.sub Rat.inv

/-- C7: on the concrete input [(0,0),(0,1),(10,10),(10,11)] with epsilon 2
and minPoints 2, DBSCAN produces exactly two clusters, the one of indices 0
and 1 and the one of indices 2 and 3, and the labels runClustering attaches
are 0, 0, 1, 1 — every point labeled, none with the noise marker -1. -/
theorem claim7_concrete_scenario :
    DbscanClusterer [((0 : ℚ), (0 : ℚ)), (0, 1), (10, 10), (10, 11)] 2 2
      = .ok [[0, 1], [2, 3]] ∧
    (runClustering "dbscan" 2 2 0
        [{ x := 0, y := 0 }, { x := 0, y := 1 }, { x := 10, y := 10 },
          { x := 10, y := 11 }] 3).1
      = [{ x := 0, y := 0, cluster := some 0 }, { x := 0, y := 1, cluster := some 0 },
          { x := 10, y := 10, cluster := some 1 },
          { x := 10, y := 11, cluster := some 1 }] := by
  constructor
  · unfold DbscanClusterer
    rw [if_neg (by decide)]
    exact congrArg Except.ok (by decide)
  · decide

end ConcreteEvaluation
